import Mathlib

/-!
Shallow embedding of `src/uploader.py` from sidnevart/youtube-uploader.

The program authenticates against the YouTube API, resolves the channel, and
uploads one video with optional thumbnail. We embed the two functions the
claims are about:

* `get_authenticated_service` (uploader.py lines 19-70): loads a pickled
  credential, checks validity and scope equality, refreshes or re-runs the
  OAuth flow, and builds the API client.  External effects (file existence,
  pickle load outcome, refresh outcome, OAuth flow outcome, client build
  outcome) are supplied by an `AuthEnv` record; the function returns an
  `Except` value (an uncaught Python exception is `.error`) together with a
  trace of the external actions attempted.

* `upload_video` (uploader.py lines 100-181): checks local file existence,
  shapes the metadata payload (shorts title/description/tag rules, 100-char
  title truncation, scheduled publish time), performs the insert and the
  thumbnail-set call.  External effects are supplied by an `UploadEnv`; the
  function returns the `Option` video id together with the list of remote API
  calls attempted.

Python strings are modelled as lists of characters (`PyStr`); Python `None`
as `Option.none`; Python truthiness of an optional string / list is made
explicit (`pyTruthyStr`, `pyOrList`).  Time is modelled at whole-second
granularity: `datetime.utcnow()` is the `now` field of the environment
(seconds since the Unix epoch) and `isoformat` renders it the way
`datetime.isoformat` renders a microsecond-free instant.
-/

namespace Uploader

/-- Model of a Python `str`: a list of characters.
Slicing `s[:n]` is `List.take n`, `len` is `List.length`. -/
abbrev PyStr := List Char

/-- The two OAuth scopes requested by `get_authenticated_service`
(uploader.py lines 23-26). -/
def SCOPES : List String :=
  ["https://www.googleapis.com/auth/youtube.upload",
   "https://www.googleapis.com/auth/youtube.readonly"]

/-- Model of the deserialized credential object (`google.oauth2` credentials):
the attributes `get_authenticated_service` reads.  `scopes` is `none` when the
Python attribute is `None` (a credential can be stored without scopes). -/
structure Credential where
  valid : Bool
  expired : Bool
  refresh_token : Option String
  scopes : Option (List String)
deriving DecidableEq

/-- The API client handle returned by `build`, bound to the credential it was
constructed with (uploader.py line 65). -/
structure Handle where
  credentials : Credential
deriving DecidableEq

/-- External actions `get_authenticated_service` can attempt, in order:
reading the token file, refreshing the credential, running the interactive
OAuth flow, building the API client. -/
inductive AuthEvent
  | load
  | refresh
  | flow
  | build
deriving DecidableEq

/-- Environment of `get_authenticated_service`: outcomes of its external
effects.  `load_result = none` means `pickle.load` raised;
`refresh_result = none` means `credentials.refresh(Request())` raised, and
`some c` is the credential state after a successful in-place refresh;
`flow_result = none` means the OAuth flow (or saving the new token) raised;
`build_ok = false` means `build("youtube", "v3", ...)` raised. -/
structure AuthEnv where
  token_file_exists : Bool
  load_result : Option Credential
  refresh_result : Option Credential
  flow_result : Option Credential
  build_ok : Bool
deriving DecidableEq

/-- Python truthiness of an optional string: `None` and `""` are falsy. -/
def pyTruthyStr : Option String → Bool
  | none => false
  | some s => !(s == "")

/-- Python `set(a) != set(b)` negated: order-independent set equality of two
string lists (uploader.py line 38 compares `set(scopes)` with
`set(credentials.scopes)`). -/
def pySetEq (a b : List String) : Bool :=
  a.all (fun x => b.contains x) && b.all (fun x => a.contains x)

/-- Evaluation of the guard on uploader.py line 38:
`not credentials or not credentials.valid or set(scopes) != set(credentials.scopes)`,
with Python short-circuiting.  When the credential is truthy and valid but its
`scopes` attribute is `None`, `set(credentials.scopes)` raises `TypeError`
uncaught, hence the `Except`. -/
def needsAuthE (credentials : Option Credential) : Except String Bool :=
  match credentials with
  | none => .ok true
  | some c =>
    if !c.valid then .ok true
    else
      match c.scopes with
      | none => .error "TypeError"
      | some ss => .ok (!(pySetEq SCOPES ss))

/-- Final step of `get_authenticated_service` (uploader.py lines 63-70):
build the API client bound to the credential; a raise inside `build` is
caught and `None` returned. -/
def buildStep (env : AuthEnv) (credentials : Option Credential)
    (tr : List AuthEvent) : Except String (Option Handle) × List AuthEvent :=
  match credentials with
  | some c =>
    if env.build_ok then (.ok (some ⟨c⟩), tr ++ [.build])
    else (.ok none, tr ++ [.build])
  | none => (.ok none, tr ++ [.build])

/-- Body of `get_authenticated_service` after the token-load step
(uploader.py lines 38-70): the validity/scope guard, the refresh attempt
(only for a truthy, expired credential with a truthy refresh token), the
OAuth flow (only when the credential is falsy at that point), then `build`. -/
def authAfterLoad (env : AuthEnv) (credentials : Option Credential)
    (tr : List AuthEvent) : Except String (Option Handle) × List AuthEvent :=
  match needsAuthE credentials with
  | .error e => (.error e, tr)
  | .ok false => buildStep env credentials tr
  | .ok true =>
    let refreshed : Option Credential × List AuthEvent :=
      match credentials with
      | some c =>
        if c.expired && pyTruthyStr c.refresh_token then
          (env.refresh_result, tr ++ [.refresh])
        else (credentials, tr)
      | none => (credentials, tr)
    match refreshed with
    | (none, tr1) =>
      match env.flow_result with
      | none => (.ok none, tr1 ++ [.flow])
      | some c => buildStep env (some c) (tr1 ++ [.flow])
    | (some c, tr1) => buildStep env (some c) tr1

/-- Embedding of `get_authenticated_service` (uploader.py lines 19-70).
Returns the Python outcome — `.ok (some h)` for a returned client handle,
`.ok none` for a returned `None`, `.error e` for an uncaught exception —
together with the trace of external actions attempted. -/
def get_authenticated_service (env : AuthEnv) :
    Except String (Option Handle) × List AuthEvent :=
  if env.token_file_exists then
    match env.load_result with
    | none => (.ok none, [.load])
    | some c => authAfterLoad env (some c) [.load]
  else
    authAfterLoad env none []

/-- Left-pad a number to two digits, as Python `datetime` formatting does. -/
def pad2 (n : Nat) : String :=
  if n < 10 then "0" ++ toString n else toString n

/-- Left-pad a year to four digits, as Python `datetime` formatting does. -/
def pad4 (n : Nat) : String :=
  if n < 10 then "000" ++ toString n
  else if n < 100 then "00" ++ toString n
  else if n < 1000 then "0" ++ toString n
  else toString n

/-- Civil date (year, month, day) of a day count since 1970-01-01, the
standard days-to-Gregorian conversion underlying `datetime`. -/
def civil_from_days (z0 : Nat) : Nat × Nat × Nat :=
  let z := z0 + 719468
  let era := z / 146097
  let doe := z % 146097
  let yoe := (doe - doe / 1460 + doe / 36524 - doe / 146096) / 365
  let y := yoe + era * 400
  let doy := doe - (365 * yoe + yoe / 4 - yoe / 100)
  let mp := (5 * doy + 2) / 153
  let d := doy - (153 * mp + 2) / 5 + 1
  let m := if mp < 10 then mp + 3 else mp - 9
  (if m ≤ 2 then y + 1 else y, m, d)

/-- Model of `datetime.isoformat()` for a whole-second UTC instant `t`
(seconds since the Unix epoch): `YYYY-MM-DDTHH:MM:SS`.  The code appends a
literal `"Z"` to this itself (uploader.py line 140). -/
def isoformat (t : Nat) : String :=
  let days := t / 86400
  let s := t % 86400
  let ymd := civil_from_days days
  pad4 ymd.1 ++ "-" ++ pad2 ymd.2.1 ++ "-" ++ pad2 ymd.2.2 ++ "T" ++
    pad2 (s / 3600) ++ ":" ++ pad2 ((s % 3600) / 60) ++ ":" ++ pad2 (s % 60)

/-- Default tag list in the shorts branch (uploader.py line 118). -/
def shorts_default_tags : List String := ["Shorts", "YouTubeShorts", "video", "test"]

/-- Default tag list in the non-shorts branch (uploader.py line 121). -/
def default_tags : List String := ["video", "youtube", "test"]

/-- Python `keywords or default`: `None` and the empty list are falsy and are
replaced by the default list (uploader.py lines 118 and 121). -/
def pyOrList (keywords : Option (List String)) (d : List String) : List String :=
  match keywords with
  | none => d
  | some [] => d
  | some l => l

/-- Result of the payload-shaping step (uploader.py lines 114-121): the shaped
title, description and tag list, plus `caller_tags`, the value of the
caller's keyword-list object after the call — `keywords.append("Shorts")`
on line 119 mutates the caller's list in place when a truthy list was passed,
while a falsy argument is rebound to a fresh default list and the caller's
object is left untouched. -/
structure Shaped where
  title : PyStr
  description : PyStr
  tags : List String
  caller_tags : Option (List String)
deriving DecidableEq

/-- Embedding of the payload-shaping step of `upload_video`
(uploader.py lines 114-121): shorts title truncation/suffixing, shorts
description hashtags, default tag lists, and the `"Shorts"` tag append. -/
def shape (title description : PyStr) (keywords : Option (List String))
    (is_shorts : Bool) : Shaped :=
  if is_shorts then
    let title' := if title.length < 95
      then title.take 95 ++ (" #Shorts").data
      else title.take 95
    let kw := pyOrList keywords shorts_default_tags
    let kw' := kw ++ ["Shorts"]
    { title := title'
      description := description ++ ("\n#Shorts #YouTubeShorts").data
      tags := kw'
      caller_tags :=
        match keywords with
        | none => none
        | some [] => some []
        | some _ => some kw' }
  else
    { title := title
      description := description
      tags := pyOrList keywords default_tags
      caller_tags := keywords }

/-- The `snippet` part of the request body (uploader.py lines 125-130). -/
structure Snippet where
  title : PyStr
  description : PyStr
  tags : List String
  categoryId : String
deriving DecidableEq

/-- The `status` part of the request body (uploader.py lines 131-134 and
138-140); `publishAt` is absent when publishing immediately. -/
structure VideoStatus where
  privacyStatus : String
  selfDeclaredMadeForKids : Bool
  publishAt : Option String
deriving DecidableEq

/-- The metadata payload submitted with the video insert call. -/
structure Body where
  snippet : Snippet
  status : VideoStatus
deriving DecidableEq

/-- Embedding of the payload construction of `upload_video`
(uploader.py lines 114-143): the shaping step, the independent 100-character
title truncation, the fixed category/privacy/kids fields, and the scheduled
publish time `utcnow() + 5 minutes` rendered with `isoformat` plus a literal
`"Z"` when not publishing immediately.  `now` is `datetime.utcnow()` in
seconds since the epoch. -/
def build_body (title description : PyStr) (keywords : Option (List String))
    (is_shorts publish_immediately : Bool) (now : Nat) : Body :=
  let sh := shape title description keywords is_shorts
  { snippet :=
      { title := sh.title.take 100
        description := sh.description
        tags := sh.tags
        categoryId := "22" }
    status :=
      { privacyStatus := "public"
        selfDeclaredMadeForKids := false
        publishAt :=
          if publish_immediately then none
          else some (isoformat (now + 300) ++ "Z") } }

/-- Remote API calls `upload_video` can attempt: the resumable video insert
(carrying the shaped payload) and the thumbnail set. -/
inductive NetCall
  | insert (body : Body)
  | thumbSet (video_id : String)
deriving DecidableEq

/-- Environment of `upload_video`: `exists_file` models `os.path.exists`;
`insert_result = none` means the insert call raised (caught, `None`
returned) and `some id` a successful insert returning that video id;
`thumb_set_ok = false` means the thumbnail-set call raised; `now` is
`datetime.utcnow()` in seconds since the epoch. -/
structure UploadEnv where
  exists_file : String → Bool
  insert_result : Option String
  thumb_set_ok : Bool
  now : Nat

/-- Embedding of `upload_video` (uploader.py lines 100-181).  Returns the
Python return value (the video id, or `None`) together with the list of
remote API calls attempted.  Both file checks happen before any remote call;
the whole shaping/insert/thumbnail block sits in one `try`, whose handlers
return `None` — so a raise in the thumbnail-set call also yields `None`. -/
def upload_video (env : UploadEnv) (video_path : String)
    (thumbnail_path : Option String) (title description : PyStr)
    (publish_immediately : Bool) (keywords : Option (List String))
    (is_shorts : Bool) : Option String × List NetCall :=
  if !(env.exists_file video_path) then (none, [])
  else if pyTruthyStr thumbnail_path &&
      !(env.exists_file (thumbnail_path.getD "")) then (none, [])
  else
    let body := build_body title description keywords is_shorts
      publish_immediately env.now
    match env.insert_result with
    | none => (none, [.insert body])
    | some video_id =>
      if pyTruthyStr thumbnail_path then
        if env.thumb_set_ok then (some video_id, [.insert body, .thumbSet video_id])
        else (none, [.insert body, .thumbSet video_id])
      else (some video_id, [.insert body])

/-- Helper: `keywords or d` is never empty when the default `d` is not. -/
theorem pyOrList_ne_nil (keywords : Option (List String)) (d : List String)
    (hd : d ≠ []) : pyOrList keywords d ≠ [] := by
  match keywords with
  | none => exact hd
  | some [] => exact hd
  | some (a :: l) => simp [pyOrList]

/-- C6: if the video file does not exist, or a (truthy) thumbnail path is
given and its file does not exist, `upload_video` returns `None` with zero
remote API calls attempted (uploader.py lines 104-109 run before any network
call). -/
theorem upload_missing_file_no_network (env : UploadEnv) (video_path : String)
    (thumbnail_path : Option String) (title description : PyStr)
    (publish_immediately : Bool) (keywords : Option (List String))
    (is_shorts : Bool)
    (h : env.exists_file video_path = false ∨
      (pyTruthyStr thumbnail_path = true ∧
        env.exists_file (thumbnail_path.getD "") = false)) :
    upload_video env video_path thumbnail_path title description
      publish_immediately keywords is_shorts = (none, []) := by
  unfold upload_video
  rcases h with h | ⟨h1, h2⟩
  · simp [h]
  · cases hv : env.exists_file video_path <;> simp [hv, h1, h2]

/-- Witness for C6 at a concrete environment with the video file absent. -/
theorem upload_missing_file_no_network_witness :
    upload_video
      { exists_file := fun _ => false, insert_result := some "vid123",
        thumb_set_ok := true, now := 0 }
      "video.mp4" none ("T").data ("D").data true none false = (none, []) :=
  upload_missing_file_no_network _ "video.mp4" none ("T").data ("D").data
    true none false (Or.inl rfl)

/-- C7: with `publish_immediately = false` the payload's `publishAt` is the
instant five minutes (300 seconds) after `utcnow`, rendered by `isoformat`
with a trailing literal `"Z"`; with `publish_immediately = true` the field is
omitted (uploader.py lines 137-143). -/
theorem build_body_publish_time (title description : PyStr)
    (keywords : Option (List String)) (is_shorts : Bool) (now : Nat) :
    (build_body title description keywords is_shorts false now).status.publishAt
      = some (isoformat (now + 300) ++ "Z") ∧
    (build_body title description keywords is_shorts true now).status.publishAt
      = none :=
  ⟨rfl, rfl⟩

/-- C8: shorts with no keywords supplied get the default tag list with
`"Shorts"` appended once more (a duplicate `"Shorts"` entry) and the
description hashtag suffix; non-shorts with no keywords get exactly
`["video", "youtube", "test"]` (uploader.py lines 114-121). -/
theorem shape_shorts_defaults (title description : PyStr) :
    (shape title description none true).tags
      = ["Shorts", "YouTubeShorts", "video", "test", "Shorts"] ∧
    (shape title description none true).description
      = description ++ ("\n#Shorts #YouTubeShorts").data ∧
    (shape title description none false).tags = ["video", "youtube", "test"] :=
  ⟨rfl, rfl, rfl⟩

/-- C9: the payload-shaping step is a pure function of its inputs in this
embedding, so two invocations whose keyword argument carries the same value
(the hypothesis: the caller's tag-list state was not mutated between the
calls — in the model a mutation shows up as `caller_tags` and would change
the value passed the second time) produce identical shaped titles,
descriptions and tag lists. -/
theorem shape_idempotent (title description : PyStr)
    (kw1 kw2 : Option (List String)) (is_shorts : Bool) (h : kw2 = kw1) :
    (shape title description kw2 is_shorts).title
        = (shape title description kw1 is_shorts).title ∧
    (shape title description kw2 is_shorts).description
        = (shape title description kw1 is_shorts).description ∧
    (shape title description kw2 is_shorts).tags
        = (shape title description kw1 is_shorts).tags := by
  subst h
  exact ⟨rfl, rfl, rfl⟩

/-- Witness for C9 at concrete inputs. -/
theorem shape_idempotent_witness :
    (shape ("T").data ("D").data (some ["a"]) true).title
        = (shape ("T").data ("D").data (some ["a"]) true).title ∧
    (shape ("T").data ("D").data (some ["a"]) true).description
        = (shape ("T").data ("D").data (some ["a"]) true).description ∧
    (shape ("T").data ("D").data (some ["a"]) true).tags
        = (shape ("T").data ("D").data (some ["a"]) true).tags :=
  shape_idempotent ("T").data ("D").data (some ["a"]) (some ["a"]) true rfl

/-- C10: an empty keyword list is falsy in Python, so it yields the same
payload as an absent keyword list; every shorts payload carries the
`"Shorts"` tag (line 119 always appends it); and no payload is ever built
with an empty tag list. -/
theorem empty_keywords_default_tags (title description : PyStr)
    (is_shorts publish_immediately : Bool) (now : Nat) :
    build_body title description (some []) is_shorts publish_immediately now
      = build_body title description none is_shorts publish_immediately now ∧
    (∀ keywords : Option (List String),
      "Shorts" ∈ (shape title description keywords true).tags) ∧
    (∀ keywords : Option (List String),
      (shape title description keywords is_shorts).tags ≠ []) := by
  refine ⟨?_, ?_, ?_⟩
  · cases is_shorts <;> rfl
  · intro keywords
    have h : (shape title description keywords true).tags
        = pyOrList keywords shorts_default_tags ++ ["Shorts"] := rfl
    rw [h]
    exact List.mem_append_right _ (List.mem_singleton.mpr rfl)
  · intro keywords
    cases is_shorts
    · exact pyOrList_ne_nil keywords default_tags (by simp [default_tags])
    · have h : (shape title description keywords true).tags
          = pyOrList keywords shorts_default_tags ++ ["Shorts"] := rfl
      rw [h]
      simp

/-- Witness for C10 at concrete inputs. -/
theorem empty_keywords_default_tags_witness :
    build_body ("T").data ("D").data (some []) true true 0
      = build_body ("T").data ("D").data none true true 0 ∧
    "Shorts" ∈ (shape ("T").data ("D").data (some ["a"]) true).tags :=
  ⟨(empty_keywords_default_tags ("T").data ("D").data true true 0).1,
   (empty_keywords_default_tags ("T").data ("D").data true true 0).2.1 (some ["a"])⟩

/-- Environment in which the insert call succeeds with id `"vid123"` but the
thumbnail-set call raises; both local files exist. -/
def thumbFailEnv : UploadEnv :=
  { exists_file := fun _ => true, insert_result := some "vid123",
    thumb_set_ok := false, now := 0 }

/-- C1 counterexample: the video insert succeeds (the environment returns id
`"vid123"`), a thumbnail path was supplied and its set call fails — yet
`upload_video` returns `None`, not the video id.  The thumbnail block sits
inside the same `try` as the insert (uploader.py lines 113-181), so the
raise is caught by the shared handlers, which return `None`. -/
theorem upload_thumbnail_failure_returns_none_cx :
    thumbFailEnv.insert_result = some "vid123" ∧
    thumbFailEnv.thumb_set_ok = false ∧
    (upload_video thumbFailEnv "video.mp4" (some "thumb.jpg") ("T").data
      ("D").data true none false).fst = none :=
  ⟨rfl, rfl, rfl⟩

/-- C1 (amended): when the insert succeeds and a supplied thumbnail's set
call fails, `upload_video` returns `None` — the video was created (the
insert call is in the trace, and no reverting call exists) but the
identifier is not returned; the partial success is visible only in the
logs. -/
theorem upload_thumbnail_failure_amended (env : UploadEnv)
    (video_path : String) (thumbnail_path : Option String)
    (title description : PyStr) (publish_immediately : Bool)
    (keywords : Option (List String)) (is_shorts : Bool) (video_id : String)
    (hv : env.exists_file video_path = true)
    (ht : pyTruthyStr thumbnail_path = true)
    (hte : env.exists_file (thumbnail_path.getD "") = true)
    (hi : env.insert_result = some video_id)
    (hts : env.thumb_set_ok = false) :
    upload_video env video_path thumbnail_path title description
        publish_immediately keywords is_shorts =
      (none,
       [.insert (build_body title description keywords is_shorts
          publish_immediately env.now),
        .thumbSet video_id]) := by
  unfold upload_video
  simp [hv, ht, hte, hi, hts]

/-- Witness for C1 (amended) at the concrete failing environment. -/
theorem upload_thumbnail_failure_amended_witness :
    upload_video thumbFailEnv "video.mp4" (some "thumb.jpg") ("T").data
        ("D").data true none false =
      (none,
       [.insert (build_body ("T").data ("D").data none false true 0),
        .thumbSet "vid123"]) :=
  upload_thumbnail_failure_amended thumbFailEnv "video.mp4"
    (some "thumb.jpg") ("T").data ("D").data true none false "vid123"
    rfl rfl rfl rfl rfl

/-- A stored credential that is valid and unexpired but whose granted scopes
are a proper subset of `SCOPES`. -/
def mismatchedCred : Credential :=
  { valid := true, expired := false, refresh_token := none,
    scopes := some ["https://www.googleapis.com/auth/youtube.upload"] }

/-- Environment that loads `mismatchedCred` and in which client construction
succeeds. -/
def mismatchedEnv : AuthEnv :=
  { token_file_exists := true, load_result := some mismatchedCred,
    refresh_result := none, flow_result := none, build_ok := true }

/-- C2 counterexample: a valid, unexpired credential whose granted scope set
is a proper subset of the required set is NOT rejected: it enters the
recovery branch (line 38's guard is true), but it is not expired so no
refresh happens (line 40) and it is truthy so the OAuth flow is skipped
(line 48) — the mismatched credential is bound to the returned client
handle. -/
theorem scope_mismatch_bound_cx :
    pySetEq SCOPES ["https://www.googleapis.com/auth/youtube.upload"] = false ∧
    mismatchedCred.valid = true ∧
    mismatchedCred.expired = false ∧
    get_authenticated_service mismatchedEnv =
      (.ok (some ⟨mismatchedCred⟩), [.load, .build]) :=
  ⟨rfl, rfl, rfl, rfl⟩

/-- C2 (amended): the guard classifies a loaded credential as usable-as-is
iff it is valid and its granted scope set equals `SCOPES` as sets
(order-independent); but a valid, unexpired credential with a mismatched
scope set, although it fails the guard, is neither refreshed nor
re-authorized: it is still bound to the returned handle when client
construction succeeds. -/
theorem scope_mismatch_amended (env : AuthEnv) (c : Credential)
    (ss : List String)
    (htf : env.token_file_exists = true)
    (hlr : env.load_result = some c)
    (hv : c.valid = true)
    (he : c.expired = false)
    (hs : c.scopes = some ss)
    (hm : pySetEq SCOPES ss = false)
    (hb : env.build_ok = true) :
    get_authenticated_service env = (.ok (some ⟨c⟩), [.load, .build]) ∧
    (∀ c' : Credential, ∀ ss' : List String, c'.scopes = some ss' →
      (needsAuthE (some c') = .ok false ↔
        (c'.valid = true ∧ pySetEq SCOPES ss' = true))) := by
  constructor
  · unfold get_authenticated_service authAfterLoad buildStep needsAuthE
    simp [htf, hlr, hv, he, hs, hm, hb]
  · intro c' ss' hs'
    unfold needsAuthE
    cases hv' : c'.valid <;> simp [hv', hs']

/-- Witness for C2 (amended) at the concrete mismatched credential. -/
theorem scope_mismatch_amended_witness :
    get_authenticated_service mismatchedEnv =
      (.ok (some ⟨mismatchedCred⟩), [.load, .build]) :=
  (scope_mismatch_amended mismatchedEnv mismatchedCred
    ["https://www.googleapis.com/auth/youtube.upload"]
    rfl rfl rfl rfl rfl rfl rfl).1

/-- A fully usable credential, available from the OAuth flow. -/
def flowReadyCred : Credential :=
  { valid := true, expired := false, refresh_token := some "r",
    scopes := some SCOPES }

/-- Environment whose token file exists but fails to deserialize, while the
OAuth flow would succeed and client construction would succeed. -/
def corruptTokenEnv : AuthEnv :=
  { token_file_exists := true, load_result := none,
    refresh_result := none, flow_result := some flowReadyCred,
    build_ok := true }

/-- C3 counterexample: when `pickle.load` raises, `get_authenticated_service`
returns `None` immediately (uploader.py line 36) — the interactive
authorization flow is never attempted (the trace stops at the load), even
though in this environment the flow and the client build would both
succeed. -/
theorem corrupt_token_no_reauth_cx :
    corruptTokenEnv.load_result = none ∧
    corruptTokenEnv.flow_result = some flowReadyCred ∧
    corruptTokenEnv.build_ok = true ∧
    get_authenticated_service corruptTokenEnv = (.ok none, [.load]) ∧
    AuthEvent.flow ∉ (get_authenticated_service corruptTokenEnv).snd := by
  refine ⟨rfl, rfl, rfl, rfl, ?_⟩
  decide

/-- C3 (amended): a token artifact whose deserialization fails makes
`get_authenticated_service` return `None` at once — the condition is
surfaced to the caller as an absent handle, with no refresh, no interactive
re-authentication and no client construction attempted. -/
theorem corrupt_token_amended (env : AuthEnv)
    (htf : env.token_file_exists = true)
    (hlr : env.load_result = none) :
    get_authenticated_service env = (.ok none, [.load]) := by
  unfold get_authenticated_service
  simp [htf, hlr]

/-- Witness for C3 (amended) at the concrete corrupt-token environment. -/
theorem corrupt_token_amended_witness :
    get_authenticated_service corruptTokenEnv = (.ok none, [.load]) :=
  corrupt_token_amended corruptTokenEnv rfl rfl

/-- A 94-character title, under the 95-character shorts cutoff. -/
def title94 : PyStr := List.replicate 94 'a'

/-- C4 counterexample: for a 94-character title with `is_shorts = true`, the
claim says the payload title equals `title ++ " #Shorts"` after the final
100-character truncation; but that suffixed string has 102 characters, so
the `title[:100]` at payload-build time (uploader.py line 126) cuts it to
100 characters and the equality fails. -/
theorem shorts_title_suffix_cx :
    title94.length = 94 ∧
    (build_body title94 [] none true true 0).snippet.title
      ≠ title94 ++ (" #Shorts").data ∧
    ((build_body title94 [] none true true 0).snippet.title).length = 100 :=
  ⟨by decide, by decide, by decide⟩

/-- C4 (amended): with `is_shorts = true`, a title of length ≥ 95 is cut to
exactly its first 95 characters with no suffix; a title of length < 95 is
shaped to `title ++ " #Shorts"`, and the payload title is the first 100
characters of that string — hence always ≤ 100 characters, and equal to the
full suffixed string only when the original title has at most 92
characters. -/
theorem shorts_title_amended (title description : PyStr)
    (keywords : Option (List String)) (publish_immediately : Bool)
    (now : Nat) :
    (95 ≤ title.length →
      (build_body title description keywords true publish_immediately
        now).snippet.title = title.take 95) ∧
    (title.length < 95 →
      (shape title description keywords true).title
          = title ++ (" #Shorts").data ∧
      (build_body title description keywords true publish_immediately
          now).snippet.title = (title ++ (" #Shorts").data).take 100 ∧
      ((build_body title description keywords true publish_immediately
          now).snippet.title).length ≤ 100 ∧
      (title.length ≤ 92 →
        (build_body title description keywords true publish_immediately
          now).snippet.title = title ++ (" #Shorts").data)) := by
  have hbody : (build_body title description keywords true
      publish_immediately now).snippet.title
        = (shape title description keywords true).title.take 100 := rfl
  constructor
  · intro h95
    have hsh : (shape title description keywords true).title
        = title.take 95 := by
      simp [shape, Nat.not_lt.mpr h95]
    rw [hbody, hsh, List.take_take]
    norm_num
  · intro hlt
    have htake : title.take 95 = title :=
      List.take_of_length_le (Nat.le_of_lt hlt)
    have hsh : (shape title description keywords true).title
        = title ++ (" #Shorts").data := by
      simp [shape, hlt, htake]
    refine ⟨hsh, by rw [hbody, hsh], ?_, ?_⟩
    · rw [hbody, List.length_take]
      exact Nat.min_le_left _ _
    · intro h92
      rw [hbody, hsh]
      apply List.take_of_length_le
      rw [List.length_append]
      have hsuf : (" #Shorts").data.length = 8 := rfl
      omega

/-- Witness for C4 (amended) at a concrete 90-character title, whose payload
title keeps the full `" #Shorts"` suffix. -/
theorem shorts_title_amended_witness :
    (build_body (List.replicate 90 'a') ("D").data none true true
        0).snippet.title
      = List.replicate 90 'a' ++ (" #Shorts").data :=
  ((shorts_title_amended (List.replicate 90 'a') ("D").data none true 0).2
    (by decide)).2.2.2 (by decide)

/-- Helper: the client-build step always returns a Python value, never
raises uncaught (uploader.py lines 63-70 wrap `build` in try/except). -/
theorem buildStep_fst_ok (env : AuthEnv) (credentials : Option Credential)
    (tr : List AuthEvent) :
    ∃ r : Option Handle, (buildStep env credentials tr).fst = .ok r := by
  unfold buildStep
  cases credentials with
  | none => exact ⟨none, rfl⟩
  | some c => cases hb : env.build_ok <;> simp [hb]

/-- Helper: the guard on uploader.py line 38 evaluates without raising
whenever a loaded, valid credential carries a non-`None` scope list. -/
theorem needsAuthE_ne_error (credentials : Option Credential)
    (h : ∀ c : Credential, credentials = some c → c.valid = true →
      c.scopes ≠ none) :
    ∀ e : String, needsAuthE credentials ≠ .error e := by
  intro e
  cases credentials with
  | none => simp [needsAuthE]
  | some c =>
    cases hv : c.valid with
    | false => simp [needsAuthE, hv]
    | true =>
      cases hs : c.scopes with
      | none => exact absurd hs (h c rfl hv)
      | some ss => simp [needsAuthE, hv, hs]

/-- Helper: everything after the guard — refresh, OAuth flow, client build —
is wrapped in try/except and returns a Python value; so when the guard
itself evaluates without raising, `authAfterLoad` returns `.ok`. -/
theorem authAfterLoad_fst_ok (env : AuthEnv) (credentials : Option Credential)
    (tr : List AuthEvent)
    (h : ∀ e : String, needsAuthE credentials ≠ .error e) :
    ∃ r : Option Handle, (authAfterLoad env credentials tr).fst = .ok r := by
  unfold authAfterLoad
  cases hne : needsAuthE credentials with
  | error e => exact absurd hne (h e)
  | ok b =>
    cases b with
    | false => exact buildStep_fst_ok env credentials tr
    | true =>
      cases credentials with
      | none =>
        cases hfr : env.flow_result with
        | none => exact ⟨none, rfl⟩
        | some c => simpa using buildStep_fst_ok env (some c) (tr ++ [.flow])
      | some c =>
        cases hcond : (c.expired && pyTruthyStr c.refresh_token) with
        | false => simpa [hcond] using buildStep_fst_ok env (some c) tr
        | true =>
          cases hrr : env.refresh_result with
          | none =>
            cases hfr : env.flow_result with
            | none => simp [hcond, hrr, hfr]
            | some c' =>
              simpa [hcond, hrr, hfr] using
                buildStep_fst_ok env (some c') (tr ++ [.refresh, .flow])
          | some c' =>
            simpa [hcond, hrr] using
              buildStep_fst_ok env (some c') (tr ++ [.refresh])

/-- A stored credential that is valid but whose `scopes` attribute is `None`. -/
def scopelessCred : Credential :=
  { valid := true, expired := false, refresh_token := none, scopes := none }

/-- Environment that deserializes `scopelessCred` successfully. -/
def scopelessEnv : AuthEnv :=
  { token_file_exists := true, load_result := some scopelessCred,
    refresh_result := none, flow_result := none, build_ok := true }

/-- C5 counterexample: a token file that deserializes to a valid credential
whose `scopes` attribute is `None` makes line 38's
`set(credentials.scopes)` raise `TypeError` — uncaught, since the guard
expression is outside every try/except — so `get_authenticated_service`
neither returns a handle nor `None`. -/
theorem auth_uncaught_typeerror_cx :
    scopelessCred.valid = true ∧
    (get_authenticated_service scopelessEnv).fst = .error "TypeError" :=
  ⟨rfl, rfl⟩

/-- C5 (amended): `get_authenticated_service` returns a handle or `None`
without raising for every environment, except when the loaded credential is
valid but its `scopes` attribute is `None` — evaluating the scope-set
comparison then raises an uncaught `TypeError`. -/
theorem auth_no_uncaught_amended (env : AuthEnv)
    (h : ∀ c : Credential, env.load_result = some c → c.valid = true →
      c.scopes ≠ none) :
    ∃ r : Option Handle, (get_authenticated_service env).fst = .ok r := by
  unfold get_authenticated_service
  cases htf : env.token_file_exists with
  | false =>
    simpa using authAfterLoad_fst_ok env none []
      (needsAuthE_ne_error none (by intro c hc; cases hc))
  | true =>
    cases hlr : env.load_result with
    | none => exact ⟨none, rfl⟩
    | some c =>
      simpa using authAfterLoad_fst_ok env (some c) [.load]
        (needsAuthE_ne_error (some c)
          (by intro c2 hc2 hv2; cases hc2; exact h c hlr hv2))

/-- Witness for C5 (amended) at a concrete environment with no token file. -/
theorem auth_no_uncaught_amended_witness :
    ∃ r : Option Handle,
      (get_authenticated_service
        { token_file_exists := false, load_result := none,
          refresh_result := none, flow_result := some flowReadyCred,
          build_ok := true }).fst = .ok r :=
  auth_no_uncaught_amended _ (fun _ hc => nomatch hc)

end Uploader
